import Mathlib

/-!
Verification of the token-ledger chaincode: a shallow embedding of the two
Go implementations found in the repository and proofs of the specified
properties.

Two parallel implementations exist in the source tree:
  * the compact representation (chaincode-go/chaincode/token_contract.go):
    `transferHelper` stores bare integer-string balances via strconv,
  * the rich representation (the unnamed chaincode file): `transferHelper`
    stores full JSON `User` records and a `SetTransaction` helper exists.
Both are embedded below, in namespaces `Compact` and `Rich`.

The host world state (Fabric stub) is modelled as a function from keys to
optional stored values, together with a failure oracle describing which
stub calls (GetState / PutState / SetEvent) fail.  Stateful operations
return `Option Err × Ctx`: the error reported to the host (if any) and the
context holding all writes staged so far.
-/

/-- The `User` record of both Go files (JSON tags ID / type / balance). -/
structure User where
  ID : String
  type : String
  balance : Int
deriving DecidableEq

/-- The `Transaction` record (JSON tags TXID / from / to / value). -/
structure Transaction where
  TXID : String
  From : String
  To : String
  Value : Int
deriving DecidableEq

/-- The `event` payload struct (JSON tags from / to / value). -/
structure event where
  From : String
  To : String
  Value : Int
deriving DecidableEq

/-- Abstract content of a byte string held in the world state.  The code
only ever writes JSON-encoded `User` records (InitLedger, rich
transferHelper), bare base-10 integer strings (compact transferHelper) and
JSON-encoded `Transaction` records (rich SetTransaction); `junk` stands
for any byte string that is none of these (in particular not valid JSON
and not an integer string). -/
inductive StoredVal where
  | userJson (u : User)
  | txJson (t : Transaction)
  | intStr (n : Int)
  | junk
deriving DecidableEq

/-- Errors returned by the chaincode functions, one constructor per
`fmt.Errorf` site (or raw stub error) of the source. -/
inductive Err where
  | selfTransfer
  | negativeAmount
  | readClientAccountFailed (id : String)
  | readRecipientAccountFailed (id : String)
  | readWorldStateFailed
  | noBalance (id : String)
  | insufficientFunds (id : String)
  | balanceLowerThan (v : Int)
  | emptyError
  | unmarshalError
  | putFailed (id : String)
  | putWorldFailed (id : String)
  | setEventFailed
  | userDoesNotExist (id : String)
  | transferFailed (e : Err)
deriving DecidableEq

/-- Which stub calls fail during the invocation (host-side I/O faults). -/
structure Oracle where
  getFail : String → Bool
  putFail : String → Bool
  emitFail : Bool

/-- An oracle under which every stub call succeeds. -/
def Oracle.reliable : Oracle :=
  { getFail := fun _ => false, putFail := fun _ => false, emitFail := false }

/-- The transaction context: the current world state (with all staged
writes applied), the events set so far, the host-supplied transaction id
and the failure oracle for the stub. -/
structure Ctx where
  oracle : Oracle
  store : String → Option StoredVal
  events : List (String × event)
  txid : String

/-- Point update of a store. -/
def upd (s : String → Option StoredVal) (k : String) (v : StoredVal) :
    String → Option StoredVal :=
  fun q => if q = k then some v else s q

/-- The stub's PutState: stages the write, or fails per the oracle (in
which case nothing is staged). -/
def Ctx.PutState (c : Ctx) (key : String) (v : StoredVal) : Option Err × Ctx :=
  if c.oracle.putFail key then (some (.putFailed key), c)
  else (none, { c with store := upd c.store key v })

/-- Go's `strconv.Atoi` with the error ignored (as the compact
`transferHelper` does): an integer string yields its value, any other byte
content makes Atoi fail and the ignored-error pattern leaves the zero
value. -/
def atoi : StoredVal → Int
  | .intStr n => n
  | _ => 0

/-- Go's `json.Unmarshal` of stored bytes into a `User`.  `none` input
(absent key) fails; a JSON `User` object decodes to itself; a JSON
`Transaction` object is a valid JSON object whose field names all differ
from the `User` tags, so it decodes to the zero `User`; an integer string
or junk bytes fail. -/
def unmarshalUser : Option StoredVal → Option User
  | some (.userJson u) => some u
  | some (.txJson _) => some { ID := "", type := "", balance := 0 }
  | _ => none

/-- Go's `json.Unmarshal` of stored bytes into a `Transaction`, by the
same rules as `unmarshalUser`. -/
def unmarshalTransaction : Option StoredVal → Option Transaction
  | some (.txJson t) => some t
  | some (.userJson _) => some { TXID := "", From := "", To := "", Value := 0 }
  | _ => none

/-- The balance stored at a key in the compact reading: the integer value
of the bytes (absent key counts as 0, as the compact recipient path
does). -/
def intBal (c : Ctx) (id : String) : Int :=
  match c.store id with
  | none => 0
  | some b => atoi b

/-- The balance stored at a key in the rich reading: the balance field of
the decoded `User` record (absent or undecodable counts as 0). -/
def userBal (c : Ctx) (id : String) : Int :=
  match unmarshalUser (c.store id) with
  | none => 0
  | some u => u.balance

/-- Modelled from the spec: the host commits all writes of one invocation
together or none.  When the invocation reports an error every staged
write (and staged event) is discarded, so the committed state is the
pre-invocation state; on success the staged context is committed. -/
def committed (pre : Ctx) : Option Err × Ctx → Ctx
  | (some _, _) => pre
  | (none, c) => c

namespace Compact

/-- InitLedger of the compact file: JSON-marshals and PutStates the two
seed `User` records (marshalling of these records cannot fail). -/
def InitLedger (c : Ctx) : Option Err × Ctx :=
  match c.PutState "TestUser" (.userJson { ID := "TestUser", type := "user", balance := 100000 }) with
  | (some _, c1) => (some (.putWorldFailed "TestUser"), c1)
  | (none, c1) =>
    match c1.PutState "TestSeller" (.userJson { ID := "TestSeller", type := "seller", balance := 0 }) with
    | (some _, c2) => (some (.putWorldFailed "TestSeller"), c2)
    | (none, c2) => (none, c2)

/-- GetUser of the compact file: GetState then json.Unmarshal; an
unmarshal failure is reported as the empty error `fmt.Errorf("")`. -/
def GetUser (c : Ctx) (id : String) : Except Err User :=
  if c.oracle.getFail id then .error .readWorldStateFailed
  else
    match unmarshalUser (c.store id) with
    | none => .error .emptyError
    | some user => .ok user

/-- BalanceOf: GetUser, with any error replaced by "user id does not
exist"; returns the decoded balance. -/
def BalanceOf (c : Ctx) (id : String) : Except Err Int :=
  match GetUser c id with
  | .error _ => .error (.userDoesNotExist id)
  | .ok user => .ok user.balance

/-- UserExist: GetState and test for a non-nil value, no decoding. -/
def UserExist (c : Ctx) (id : String) : Except Err Bool :=
  if c.oracle.getFail id then .error .readWorldStateFailed
  else .ok (c.store id).isSome

/-- GetTransaction of the compact file: GetState then json.Unmarshal into
a `Transaction`; an unmarshal failure is reported as the empty error. -/
def GetTransaction (c : Ctx) (txid : String) : Except Err Transaction :=
  if c.oracle.getFail txid then .error .readWorldStateFailed
  else
    match unmarshalTransaction (c.store txid) with
    | none => .error .emptyError
    | some t => .ok t

/-- transferHelper of the compact file: validates (self-transfer, negative
amount), GetStates the sender (absent means "no balance"), reads its
balance with `strconv.Atoi` ignoring the error, checks sufficiency,
GetStates the recipient (absent means balance 0, again Atoi with the
error ignored), then PutStates both updated integer-string balances. -/
def transferHelper (c : Ctx) (fromId toId : String) (value : Int) : Option Err × Ctx :=
  if fromId = toId then (some .selfTransfer, c)
  else if value < 0 then (some .negativeAmount, c)
  else if c.oracle.getFail fromId then (some (.readClientAccountFailed fromId), c)
  else
    match c.store fromId with
    | none => (some (.noBalance fromId), c)
    | some fromCurrentBalanceBytes =>
      let fromCurrentBalance := atoi fromCurrentBalanceBytes
      if fromCurrentBalance < value then (some (.insufficientFunds fromId), c)
      else if c.oracle.getFail toId then (some (.readRecipientAccountFailed toId), c)
      else
        let toCurrentBalance :=
          match c.store toId with
          | none => 0
          | some toCurrentBalanceBytes => atoi toCurrentBalanceBytes
        let fromUpdatedBalance := fromCurrentBalance - value
        let toUpdatedBalance := toCurrentBalance + value
        match c.PutState fromId (.intStr fromUpdatedBalance) with
        | (some e, c1) => (some e, c1)
        | (none, c1) =>
          match c1.PutState toId (.intStr toUpdatedBalance) with
          | (some e, c2) => (some e, c2)
          | (none, c2) => (none, c2)

/-- SetEvent: json-marshals the payload (cannot fail for this record type)
and calls the stub's SetEvent with the literal name "Transfer", ignoring
the `eventName` argument. -/
def SetEvent (c : Ctx) (eventName : String) (e : event) : Option Err × Ctx :=
  if c.oracle.emitFail then (some .setEventFailed, c)
  else (none, { c with events := c.events ++ [("Transfer", e)] })

/-- TransferFrom: transferHelper (its error wrapped as "failed to
transfer"), then SetEvent of the Transfer event. -/
def TransferFrom (c : Ctx) (fromId toId : String) (value : Int) : Option Err × Ctx :=
  match transferHelper c fromId toId value with
  | (some e, c1) => (some (.transferFailed e), c1)
  | (none, c1) => SetEvent c1 "Transfer" { From := fromId, To := toId, Value := value }

end Compact

namespace Rich

/-- InitLedger of the rich file (identical to the compact one):
JSON-marshals and PutStates the two seed `User` records. -/
def InitLedger (c : Ctx) : Option Err × Ctx :=
  match c.PutState "TestUser" (.userJson { ID := "TestUser", type := "user", balance := 100000 }) with
  | (some _, c1) => (some (.putWorldFailed "TestUser"), c1)
  | (none, c1) =>
    match c1.PutState "TestSeller" (.userJson { ID := "TestSeller", type := "seller", balance := 0 }) with
    | (some _, c2) => (some (.putWorldFailed "TestSeller"), c2)
    | (none, c2) => (none, c2)

/-- GetUser of the rich file: GetState then json.Unmarshal; the unmarshal
error itself is returned on failure (also for an absent key: unmarshal of
nil bytes fails). -/
def GetUser (c : Ctx) (id : String) : Except Err User :=
  if c.oracle.getFail id then .error .readWorldStateFailed
  else
    match unmarshalUser (c.store id) with
    | none => .error .unmarshalError
    | some user => .ok user

/-- BalanceOf of the rich file: GetUser, with any error replaced by
"user id does not exist". -/
def BalanceOf (c : Ctx) (id : String) : Except Err Int :=
  match GetUser c id with
  | .error _ => .error (.userDoesNotExist id)
  | .ok user => .ok user.balance

/-- UserExist of the rich file: GetState and test for non-nil. -/
def UserExist (c : Ctx) (id : String) : Except Err Bool :=
  if c.oracle.getFail id then .error .readWorldStateFailed
  else .ok (c.store id).isSome

/-- GetTransaction of the rich file: GetState then json.Unmarshal into a
`Transaction`, returning the unmarshal error on failure. -/
def GetTransaction (c : Ctx) (txid : String) : Except Err Transaction :=
  if c.oracle.getFail txid then .error .readWorldStateFailed
  else
    match unmarshalTransaction (c.store txid) with
    | none => .error .unmarshalError
    | some t => .ok t

/-- SetTransaction of the rich file: builds a `Transaction` from the
host-supplied txid and PutStates its JSON under the txid, returning the
record together with the PutState error (the Go code returns
`&transaction, err`). -/
def SetTransaction (c : Ctx) (fromId toId : String) (balance : Int) :
    Transaction × Option Err × Ctx :=
  let transaction : Transaction :=
    { TXID := c.txid, From := fromId, To := toId, Value := balance }
  match c.PutState c.txid (.txJson transaction) with
  | (e, c1) => (transaction, e, c1)

/-- transferHelper of the rich file: validates (self-transfer, negative
amount), loads the sender via GetUser, loads the recipient via GetUser
(note: BEFORE the sufficiency check), checks sufficiency ("user balance
lower than value"), then marshals and PutStates both updated `User`
records. -/
def transferHelper (c : Ctx) (fromId toId : String) (value : Int) : Option Err × Ctx :=
  if fromId = toId then (some .selfTransfer, c)
  else if value < 0 then (some .negativeAmount, c)
  else
    match GetUser c fromId with
    | .error e => (some e, c)
    | .ok fromUser =>
      match GetUser c toId with
      | .error e => (some e, c)
      | .ok toUser =>
        if fromUser.balance < value then (some (.balanceLowerThan value), c)
        else
          let fromUser1 := { fromUser with balance := fromUser.balance - value }
          let toUser1 := { toUser with balance := toUser.balance + value }
          match c.PutState fromId (.userJson fromUser1) with
          | (some e, c1) => (some e, c1)
          | (none, c1) =>
            match c1.PutState toId (.userJson toUser1) with
            | (some e, c2) => (some e, c2)
            | (none, c2) => (none, c2)

/-- SetEvent of the rich file: identical to the compact one; the event is
published under the literal name "Transfer", ignoring `eventName`. -/
def SetEvent (c : Ctx) (eventName : String) (e : event) : Option Err × Ctx :=
  if c.oracle.emitFail then (some .setEventFailed, c)
  else (none, { c with events := c.events ++ [("Transfer", e)] })

/-- TransferFrom of the rich file: transferHelper (error wrapped as
"failed to transfer"), then SetEvent; no Transaction record is created
here. -/
def TransferFrom (c : Ctx) (fromId toId : String) (value : Int) : Option Err × Ctx :=
  match transferHelper c fromId toId value with
  | (some e, c1) => (some (.transferFailed e), c1)
  | (none, c1) => SetEvent c1 "Transfer" { From := fromId, To := toId, Value := value }

end Rich

/-! ### Helper lemmas -/

theorem upd_self (s : String → Option StoredVal) (k : String) (v : StoredVal) :
    upd s k v k = some v := by
  simp [upd]

theorem upd_ne (s : String → Option StoredVal) (k : String) (v : StoredVal)
    (q : String) (h : q ≠ k) : upd s k v q = s q := by
  simp [upd, h]

theorem Compact.setEvent_append (c c' : Ctx) (n : String) (e : event)
    (h : Compact.SetEvent c n e = (none, c')) :
    c' = { c with events := c.events ++ [("Transfer", e)] } := by
  unfold Compact.SetEvent at h
  split at h
  · cases h
  · exact (Prod.mk.injEq _ _ _ _ ▸ h).2.symm ▸ rfl

theorem Compact.transferHelper_success (c c' : Ctx) (f t : String) (v : Int)
    (h : Compact.transferHelper c f t v = (none, c')) :
    f ≠ t ∧ 0 ≤ v ∧ ∃ b, c.store f = some b ∧ v ≤ atoi b ∧
      c' = { c with
              store := upd (upd c.store f (.intStr (atoi b - v))) t
                (.intStr (intBal c t + v)) } := by
  simp only [Compact.transferHelper, Ctx.PutState] at h
  split at h
  · cases h
  next hft =>
  split at h
  · cases h
  next hv =>
  split at h
  · cases h
  next hgf =>
  split at h
  · cases h
  next b hb =>
  split at h
  · cases h
  next hsuff =>
  split at h
  · cases h
  next hgt =>
  split at h
  · cases h
  next hpf =>
  split at h
  · cases h
  next hpt =>
  refine ⟨hft, le_of_not_lt hv, b, hb, le_of_not_lt hsuff, ?_⟩
  have h2 := (Prod.mk.injEq _ _ _ _ ▸ h).2
  rw [← h2]
  split at hpf
  · cases hpf
  cases hpf
  split at hpt
  · cases hpt
  cases hpt
  simp [intBal]

theorem Compact.transferFrom_success (c c' : Ctx) (f t : String) (v : Int)
    (h : Compact.TransferFrom c f t v = (none, c')) :
    ∃ c1, Compact.transferHelper c f t v = (none, c1) ∧
      c' = { c1 with
              events := c1.events ++ [("Transfer", { From := f, To := t, Value := v })] } := by
  unfold Compact.TransferFrom at h
  split at h
  · cases h
  next c1 heq =>
  exact ⟨c1, heq, Compact.setEvent_append c1 c' _ _ h⟩

theorem Compact.initLedger_seeds (c c' : Ctx)
    (h : Compact.InitLedger c = (none, c')) :
    c' = { c with
            store := upd (upd c.store "TestUser"
                (.userJson { ID := "TestUser", type := "user", balance := 100000 }))
              "TestSeller" (.userJson { ID := "TestSeller", type := "seller", balance := 0 }) } := by
  simp only [Compact.InitLedger, Ctx.PutState] at h
  split at h
  next heq => cases h
  next c1 heq =>
  split at h
  next heq2 => cases h
  next c2 heq2 =>
  cases h
  split at heq
  · cases heq
  cases heq
  split at heq2
  · cases heq2
  cases heq2
  rfl

/-- A concrete compact-representation context (integer-string balances)
used to instantiate the general theorems. -/
def exCompactCtx : Ctx :=
  { oracle := Oracle.reliable,
    store := fun k =>
      if k = "A" then some (.intStr 50)
      else if k = "B" then some (.intStr 7) else none,
    events := [], txid := "tx1" }

/-- A concrete rich-representation context (JSON user records) used to
instantiate the general theorems. -/
def exRichCtx : Ctx :=
  { oracle := Oracle.reliable,
    store := fun k =>
      if k = "A" then some (.userJson { ID := "A", type := "user", balance := 50 })
      else if k = "B" then some (.userJson { ID := "B", type := "seller", balance := 7 })
      else none,
    events := [], txid := "tx1" }

theorem Rich.setEvent_emits (c c' : Ctx) (n : String) (e : event)
    (h : Rich.SetEvent c n e = (none, c')) :
    c' = { c with events := c.events ++ [("Transfer", e)] } := by
  unfold Rich.SetEvent at h
  split at h
  · cases h
  · exact (Prod.mk.injEq _ _ _ _ ▸ h).2.symm ▸ rfl

theorem Rich.transferHelper_writes (c c' : Ctx) (f t : String) (v : Int)
    (h : Rich.transferHelper c f t v = (none, c')) :
    f ≠ t ∧ 0 ≤ v ∧ ∃ fu tu, unmarshalUser (c.store f) = some fu ∧
      unmarshalUser (c.store t) = some tu ∧ v ≤ fu.balance ∧
      c' = { c with
              store := upd (upd c.store f (.userJson { fu with balance := fu.balance - v })) t
                (.userJson { tu with balance := tu.balance + v }) } := by
  simp only [Rich.transferHelper, Rich.GetUser, Ctx.PutState] at h
  split at h
  · cases h
  next hft =>
  split at h
  · cases h
  next hv =>
  split at h
  next e hef => cases h
  next fromUser hef =>
  split at h
  next e het => cases h
  next toUser het =>
  split at h
  · cases h
  next hsuff =>
  split at h
  next e hpf => cases h
  next c1 hpf =>
  split at h
  next e hpt => cases h
  next c2 hpt =>
  cases h
  split at hef
  · cases hef
  next hgf =>
  split at hef
  · cases hef
  next fu hfu =>
  cases hef
  split at het
  · cases het
  next hgt =>
  split at het
  · cases het
  next tu htu =>
  cases het
  refine ⟨hft, le_of_not_lt hv, fromUser, toUser, hfu, htu, le_of_not_lt hsuff, ?_⟩
  split at hpf
  · cases hpf
  cases hpf
  split at hpt
  · cases hpt
  cases hpt
  rfl

theorem Rich.transferFrom_decomp (c c' : Ctx) (f t : String) (v : Int)
    (h : Rich.TransferFrom c f t v = (none, c')) :
    ∃ c1, Rich.transferHelper c f t v = (none, c1) ∧
      c' = { c1 with
              events := c1.events ++ [("Transfer", { From := f, To := t, Value := v })] } := by
  unfold Rich.TransferFrom at h
  split at h
  · cases h
  next c1 heq =>
  exact ⟨c1, heq, Rich.setEvent_emits c1 c' _ _ h⟩

theorem Rich.initLedger_writes (c c' : Ctx)
    (h : Rich.InitLedger c = (none, c')) :
    c' = { c with
            store := upd (upd c.store "TestUser"
                (.userJson { ID := "TestUser", type := "user", balance := 100000 }))
              "TestSeller" (.userJson { ID := "TestSeller", type := "seller", balance := 0 }) } := by
  simp only [Rich.InitLedger, Ctx.PutState] at h
  split at h
  next heq => cases h
  next c1 heq =>
  split at h
  next heq2 => cases h
  next c2 heq2 =>
  cases h
  split at heq
  · cases heq
  cases heq
  split at heq2
  · cases heq2
  cases heq2
  rfl


/-! ### Claim theorems -/

/-- Claim C1: for every TransferFrom invocation that succeeds, the sum of
the stored balances of the sender and the recipient after the write
equals their sum before it, in both the compact and the rich
representation. -/
theorem C1_conservation
    (c₁ c₁' : Ctx) (f₁ t₁ : String) (v₁ : Int)
    (h₁ : Compact.TransferFrom c₁ f₁ t₁ v₁ = (none, c₁'))
    (c₂ c₂' : Ctx) (f₂ t₂ : String) (v₂ : Int)
    (h₂ : Rich.TransferFrom c₂ f₂ t₂ v₂ = (none, c₂')) :
    intBal c₁' f₁ + intBal c₁' t₁ = intBal c₁ f₁ + intBal c₁ t₁
    ∧ userBal c₂' f₂ + userBal c₂' t₂ = userBal c₂ f₂ + userBal c₂ t₂ := by
  constructor
  · obtain ⟨ch, hth, hc'⟩ := Compact.transferFrom_success _ _ _ _ _ h₁
    obtain ⟨hft, hv, b, hb, hsuff, hch⟩ := Compact.transferHelper_success _ _ _ _ _ hth
    subst hc'
    subst hch
    simp [intBal, upd, hft, hb, atoi]
  · obtain ⟨ch, hth, hc'⟩ := Rich.transferFrom_decomp _ _ _ _ _ h₂
    obtain ⟨hft, hv, fu, tu, hfu, htu, hsuff, hch⟩ := Rich.transferHelper_writes _ _ _ _ _ hth
    subst hc'
    subst hch
    simp only [userBal]
    rw [hfu, htu]
    simp [upd, hft, unmarshalUser]

/-- Witness for C1 at concrete inputs. -/
theorem C1_conservation_witness :
    intBal (Compact.TransferFrom exCompactCtx "A" "B" 5).2 "A"
        + intBal (Compact.TransferFrom exCompactCtx "A" "B" 5).2 "B"
      = intBal exCompactCtx "A" + intBal exCompactCtx "B"
    ∧ userBal (Rich.TransferFrom exRichCtx "A" "B" 5).2 "A"
        + userBal (Rich.TransferFrom exRichCtx "A" "B" 5).2 "B"
      = userBal exRichCtx "A" + userBal exRichCtx "B" :=
  C1_conservation exCompactCtx (Compact.TransferFrom exCompactCtx "A" "B" 5).2 "A" "B" 5 rfl
    exRichCtx (Rich.TransferFrom exRichCtx "A" "B" 5).2 "A" "B" 5 rfl

/-- An empty world state with a reliable stub. -/
def exEmptyCtx : Ctx :=
  { oracle := Oracle.reliable, store := fun _ => none, events := [], txid := "tx1" }

/-- Claim C2: starting from any state in which every stored balance is
nonnegative, every successful TransferFrom leaves every stored balance
nonnegative, and the other writing operations (InitLedger, and the rich
SetTransaction) never commit a negative balance either — in the compact
representation balances are the integer readings of the stored bytes, in
the rich representation the balance fields of the decoded user records. -/
theorem C2_nonnegativity
    (c₁ c₁' : Ctx) (f₁ t₁ : String) (v₁ : Int)
    (hpos₁ : ∀ id, 0 ≤ intBal c₁ id)
    (h₁ : Compact.TransferFrom c₁ f₁ t₁ v₁ = (none, c₁'))
    (c₂ c₂' : Ctx) (f₂ t₂ : String) (v₂ : Int)
    (hpos₂ : ∀ id, 0 ≤ userBal c₂ id)
    (h₂ : Rich.TransferFrom c₂ f₂ t₂ v₂ = (none, c₂'))
    (c₃ c₃' : Ctx) (hpos₃ : ∀ id, 0 ≤ intBal c₃ id)
    (h₃ : Compact.InitLedger c₃ = (none, c₃'))
    (c₄ c₄' : Ctx) (hpos₄ : ∀ id, 0 ≤ userBal c₄ id)
    (h₄ : Rich.InitLedger c₄ = (none, c₄'))
    (c₅ c₅' : Ctx) (f₅ t₅ : String) (v₅ : Int) (e₅ : Option Err) (tx₅ : Transaction)
    (hpos₅ : ∀ id, 0 ≤ userBal c₅ id)
    (h₅ : Rich.SetTransaction c₅ f₅ t₅ v₅ = (tx₅, e₅, c₅')) :
    (∀ id, 0 ≤ intBal c₁' id) ∧ (∀ id, 0 ≤ userBal c₂' id)
    ∧ (∀ id, 0 ≤ intBal c₃' id) ∧ (∀ id, 0 ≤ userBal c₄' id)
    ∧ (∀ id, 0 ≤ userBal c₅' id) := by
  refine ⟨?_, ?_, ?_, ?_, ?_⟩
  · obtain ⟨ch, hth, hc'⟩ := Compact.transferFrom_success _ _ _ _ _ h₁
    obtain ⟨hft, hv, b, hb, hsuff, hch⟩ := Compact.transferHelper_success _ _ _ _ _ hth
    subst hc'
    subst hch
    intro id
    have h5 := hpos₁ id
    have h6 := hpos₁ t₁
    simp only [intBal] at h5 h6 ⊢
    by_cases hid : id = t₁
    · subst hid
      rw [upd_self]
      simp [atoi] at h6 ⊢
      omega
    · rw [upd_ne _ _ _ _ hid]
      by_cases hif : id = f₁
      · subst hif
        rw [upd_self]
        simp [atoi] at hsuff ⊢
        omega
      · rw [upd_ne _ _ _ _ hif]
        exact h5
  · obtain ⟨ch, hth, hc'⟩ := Rich.transferFrom_decomp _ _ _ _ _ h₂
    obtain ⟨hft, hv, fu, tu, hfu, htu, hsuff, hch⟩ := Rich.transferHelper_writes _ _ _ _ _ hth
    subst hc'
    subst hch
    intro id
    have h5 := hpos₂ id
    have h6 := hpos₂ t₂
    simp only [userBal] at h5 h6 ⊢
    rw [htu] at h6
    simp at h6
    by_cases hid : id = t₂
    · subst hid
      rw [upd_self]
      simp [unmarshalUser]
      omega
    · rw [upd_ne _ _ _ _ hid]
      by_cases hif : id = f₂
      · subst hif
        rw [upd_self]
        simp [unmarshalUser]
        omega
      · rw [upd_ne _ _ _ _ hif]
        exact h5
  · have hc' := Compact.initLedger_seeds _ _ h₃
    subst hc'
    intro id
    have h5 := hpos₃ id
    simp only [intBal] at h5 ⊢
    by_cases hid : id = "TestSeller"
    · subst hid
      rw [upd_self]
      simp [atoi]
    · rw [upd_ne _ _ _ _ hid]
      by_cases hif : id = "TestUser"
      · subst hif
        rw [upd_self]
        simp [atoi]
      · rw [upd_ne _ _ _ _ hif]
        exact h5
  · have hc' := Rich.initLedger_writes _ _ h₄
    subst hc'
    intro id
    have h5 := hpos₄ id
    simp only [userBal] at h5 ⊢
    by_cases hid : id = "TestSeller"
    · subst hid
      rw [upd_self]
      simp [unmarshalUser]
    · rw [upd_ne _ _ _ _ hid]
      by_cases hif : id = "TestUser"
      · subst hif
        rw [upd_self]
        simp [unmarshalUser]
      · rw [upd_ne _ _ _ _ hif]
        exact h5
  · simp only [Rich.SetTransaction, Ctx.PutState] at h₅
    split at h₅
    · cases h₅
      exact hpos₅
    · cases h₅
      intro id
      have h5 := hpos₅ id
      simp only [userBal] at h5 ⊢
      by_cases hid : id = c₅.txid
      · subst hid
        rw [upd_self]
        simp [unmarshalUser]
      · rw [upd_ne _ _ _ _ hid]
        exact h5

/-- Witness for C2 at concrete inputs. -/
theorem C2_nonnegativity_witness :
    0 ≤ intBal (Compact.TransferFrom exCompactCtx "A" "B" 5).2 "A"
    ∧ 0 ≤ userBal (Rich.TransferFrom exRichCtx "A" "B" 5).2 "B"
    ∧ 0 ≤ intBal (Compact.InitLedger exEmptyCtx).2 "TestUser"
    ∧ 0 ≤ userBal (Rich.InitLedger exEmptyCtx).2 "TestSeller"
    ∧ 0 ≤ userBal (Rich.SetTransaction exRichCtx "A" "B" 5).2.2 "tx1" := by
  have hposC : ∀ id, 0 ≤ intBal exCompactCtx id := by
    intro id
    by_cases h1 : id = "A" <;> by_cases h2 : id = "B" <;>
      simp [intBal, exCompactCtx, h1, h2, atoi]
  have hposR : ∀ id, 0 ≤ userBal exRichCtx id := by
    intro id
    by_cases h1 : id = "A" <;> by_cases h2 : id = "B" <;>
      simp [userBal, exRichCtx, h1, h2, unmarshalUser]
  have hposE1 : ∀ id, 0 ≤ intBal exEmptyCtx id := by
    intro id
    simp [intBal, exEmptyCtx]
  have hposE2 : ∀ id, 0 ≤ userBal exEmptyCtx id := by
    intro id
    simp [userBal, exEmptyCtx, unmarshalUser]
  obtain ⟨w1, w2, w3, w4, w5⟩ :=
    C2_nonnegativity
      exCompactCtx (Compact.TransferFrom exCompactCtx "A" "B" 5).2 "A" "B" 5 hposC rfl
      exRichCtx (Rich.TransferFrom exRichCtx "A" "B" 5).2 "A" "B" 5 hposR rfl
      exEmptyCtx (Compact.InitLedger exEmptyCtx).2 hposE1 rfl
      exEmptyCtx (Rich.InitLedger exEmptyCtx).2 hposE2 rfl
      exRichCtx (Rich.SetTransaction exRichCtx "A" "B" 5).2.2 "A" "B" 5
        (Rich.SetTransaction exRichCtx "A" "B" 5).2.1
        (Rich.SetTransaction exRichCtx "A" "B" 5).1 hposR rfl
  exact ⟨w1 "A", w2 "B", w3 "TestUser", w4 "TestSeller", w5 "tx1"⟩

/-- Claim C3 (code-bug evaluation): in the compact file, after InitLedger
the two balances read back as 100000 and 0, but
TransferFrom("TestUser","TestSeller",2500) fails with insufficient funds:
InitLedger stored JSON user records while transferHelper reads the
balance with strconv.Atoi whose error it ignores, yielding 0.  The rich
file satisfies the full end-to-end scenario: the transfer succeeds, the
balances become 97500 and 2500, and exactly one Transfer event with the
payload (TestUser, TestSeller, 2500) is emitted. -/
theorem C3_end_to_end :
    (Compact.InitLedger exEmptyCtx).1 = none
    ∧ Compact.BalanceOf (Compact.InitLedger exEmptyCtx).2 "TestUser" = .ok 100000
    ∧ Compact.BalanceOf (Compact.InitLedger exEmptyCtx).2 "TestSeller" = .ok 0
    ∧ (Compact.TransferFrom (Compact.InitLedger exEmptyCtx).2 "TestUser" "TestSeller" 2500).1
        = some (.transferFailed (.insufficientFunds "TestUser"))
    ∧ (Rich.InitLedger exEmptyCtx).1 = none
    ∧ Rich.BalanceOf (Rich.InitLedger exEmptyCtx).2 "TestUser" = .ok 100000
    ∧ Rich.BalanceOf (Rich.InitLedger exEmptyCtx).2 "TestSeller" = .ok 0
    ∧ (Rich.TransferFrom (Rich.InitLedger exEmptyCtx).2 "TestUser" "TestSeller" 2500).1 = none
    ∧ Rich.BalanceOf
        (Rich.TransferFrom (Rich.InitLedger exEmptyCtx).2 "TestUser" "TestSeller" 2500).2
        "TestUser" = .ok 97500
    ∧ Rich.BalanceOf
        (Rich.TransferFrom (Rich.InitLedger exEmptyCtx).2 "TestUser" "TestSeller" 2500).2
        "TestSeller" = .ok 2500
    ∧ (Rich.TransferFrom (Rich.InitLedger exEmptyCtx).2 "TestUser" "TestSeller" 2500).2.events
        = [("Transfer", { From := "TestUser", To := "TestSeller", Value := 2500 })] :=
  ⟨rfl, rfl, rfl, rfl, rfl, rfl, rfl, rfl, rfl, rfl, rfl⟩

/-- Counterexample to claim C4: in the rich file the recipient is
resolved before the sufficiency check, so with sender balance 50, value
51 and an absent recipient the call fails with the recipient decode
error, not with insufficient funds. -/
theorem C4_counterexample :
    (Rich.TransferFrom
        ⟨Oracle.reliable,
          fun k => if k = "A" then some (.userJson { ID := "A", type := "user", balance := 50 })
            else none,
          [], "tx1"⟩ "A" "B" 51).1
      = some (.transferFailed .unmarshalError)
    ∧ (Rich.TransferFrom
        ⟨Oracle.reliable,
          fun k => if k = "A" then some (.userJson { ID := "A", type := "user", balance := 50 })
            else none,
          [], "tx1"⟩ "A" "B" 51).1
      ≠ some (.transferFailed (.balanceLowerThan 51)) :=
  ⟨rfl, by decide⟩

/-- Claim C4 as amended: the compact transferHelper checks sufficiency
before recipient resolution, so an insufficient sender fails with the
insufficient-funds error regardless of the recipient and no state is
written; the rich transferHelper resolves the recipient first, so the
insufficient-funds failure (with no state written) is guaranteed only
when both accounts load successfully. -/
theorem C4_insufficiency_order
    (c₁ : Ctx) (f₁ t₁ : String) (v₁ : Int) (b : StoredVal)
    (hft₁ : f₁ ≠ t₁) (hv₁ : 0 ≤ v₁) (hg₁ : c₁.oracle.getFail f₁ = false)
    (hb : c₁.store f₁ = some b) (hlt₁ : atoi b < v₁)
    (c₂ : Ctx) (f₂ t₂ : String) (v₂ : Int) (fu tu : User)
    (hft₂ : f₂ ≠ t₂) (hv₂ : 0 ≤ v₂)
    (hgf₂ : c₂.oracle.getFail f₂ = false) (hgt₂ : c₂.oracle.getFail t₂ = false)
    (hfu : unmarshalUser (c₂.store f₂) = some fu)
    (htu : unmarshalUser (c₂.store t₂) = some tu)
    (hlt₂ : fu.balance < v₂) :
    Compact.TransferFrom c₁ f₁ t₁ v₁ = (some (.transferFailed (.insufficientFunds f₁)), c₁)
    ∧ Rich.TransferFrom c₂ f₂ t₂ v₂ = (some (.transferFailed (.balanceLowerThan v₂)), c₂) := by
  have hnv₁ : ¬ v₁ < 0 := not_lt.mpr hv₁
  have hnv₂ : ¬ v₂ < 0 := not_lt.mpr hv₂
  constructor
  · simp [Compact.TransferFrom, Compact.transferHelper, hft₁, hnv₁, hg₁, hb, hlt₁]
  · simp [Rich.TransferFrom, Rich.transferHelper, Rich.GetUser, hft₂, hnv₂, hgf₂, hgt₂,
      hfu, htu, hlt₂]

/-- Witness for C4 (amended) at concrete inputs. -/
theorem C4_insufficiency_order_witness :
    Compact.TransferFrom exCompactCtx "A" "B" 100
        = (some (.transferFailed (.insufficientFunds "A")), exCompactCtx)
    ∧ Rich.TransferFrom exRichCtx "A" "B" 100
        = (some (.transferFailed (.balanceLowerThan 100)), exRichCtx) :=
  C4_insufficiency_order exCompactCtx "A" "B" 100 (.intStr 50) (by decide) (by decide)
    rfl rfl (by decide)
    exRichCtx "A" "B" 100 { ID := "A", type := "user", balance := 50 }
    { ID := "B", type := "seller", balance := 7 } (by decide) (by decide)
    rfl rfl rfl rfl (by decide)

/-- Claim C5: for every state, TransferFrom(A, A, v) fails with the
self-transfer error and TransferFrom(A, B, v) with v negative fails with
the negative-amount error, in both representations; the staged context is
returned untouched (the failure happens before any store read or
write). -/
theorem C5_validation
    (c₁ : Ctx) (a₁ : String) (v₁ : Int)
    (c₂ : Ctx) (a₂ b₂ : String) (v₂ : Int) (hne : a₂ ≠ b₂) (hv : v₂ < 0) :
    Compact.TransferFrom c₁ a₁ a₁ v₁ = (some (.transferFailed .selfTransfer), c₁)
    ∧ Rich.TransferFrom c₁ a₁ a₁ v₁ = (some (.transferFailed .selfTransfer), c₁)
    ∧ Compact.TransferFrom c₂ a₂ b₂ v₂ = (some (.transferFailed .negativeAmount), c₂)
    ∧ Rich.TransferFrom c₂ a₂ b₂ v₂ = (some (.transferFailed .negativeAmount), c₂) := by
  refine ⟨?_, ?_, ?_, ?_⟩
  · simp [Compact.TransferFrom, Compact.transferHelper]
  · simp [Rich.TransferFrom, Rich.transferHelper]
  · simp [Compact.TransferFrom, Compact.transferHelper, hne, hv]
  · simp [Rich.TransferFrom, Rich.transferHelper, hne, hv]

/-- Witness for C5 at concrete inputs. -/
theorem C5_validation_witness :
    Compact.TransferFrom exCompactCtx "A" "A" 3
        = (some (.transferFailed .selfTransfer), exCompactCtx)
    ∧ Rich.TransferFrom exCompactCtx "A" "A" 3
        = (some (.transferFailed .selfTransfer), exCompactCtx)
    ∧ Compact.TransferFrom exCompactCtx "A" "B" (-1)
        = (some (.transferFailed .negativeAmount), exCompactCtx)
    ∧ Rich.TransferFrom exCompactCtx "A" "B" (-1)
        = (some (.transferFailed .negativeAmount), exCompactCtx) :=
  C5_validation exCompactCtx "A" 3 exCompactCtx "A" "B" (-1) (by decide) (by decide)

/-- Counterexample to claim C6: in the compact representation a sender
that exists but whose stored bytes read as a negative integer makes the
zero-value transfer fail (the sufficiency check compares the negative
balance against 0), so "A exists" alone does not make TransferFrom(A,B,0)
succeed. -/
theorem C6_counterexample :
    (Compact.TransferFrom
        ⟨Oracle.reliable, fun k => if k = "A" then some (.intStr (-1)) else none, [], "tx1"⟩
        "A" "B" 0).1
      = some (.transferFailed (.insufficientFunds "A")) := rfl

/-- Claim C6 as amended: for A distinct from B where the sender exists
with a nonnegative stored balance reading (and, in the rich
representation, both accounts decode as user records with the sender
balance nonnegative), TransferFrom(A, B, 0) succeeds, the stored balances
of A and B read the same after the call as before it, and a Transfer
event is still emitted. -/
theorem C6_zero_transfer
    (c₁ : Ctx) (f₁ t₁ : String) (b : StoredVal)
    (hft₁ : f₁ ≠ t₁) (hb : c₁.store f₁ = some b) (hbal₁ : 0 ≤ atoi b)
    (hgf₁ : c₁.oracle.getFail f₁ = false) (hgt₁ : c₁.oracle.getFail t₁ = false)
    (hpf₁ : c₁.oracle.putFail f₁ = false) (hpt₁ : c₁.oracle.putFail t₁ = false)
    (hef₁ : c₁.oracle.emitFail = false)
    (c₂ : Ctx) (f₂ t₂ : String) (fu tu : User)
    (hft₂ : f₂ ≠ t₂)
    (hfu : unmarshalUser (c₂.store f₂) = some fu)
    (htu : unmarshalUser (c₂.store t₂) = some tu)
    (hbal₂ : 0 ≤ fu.balance)
    (hgf₂ : c₂.oracle.getFail f₂ = false) (hgt₂ : c₂.oracle.getFail t₂ = false)
    (hpf₂ : c₂.oracle.putFail f₂ = false) (hpt₂ : c₂.oracle.putFail t₂ = false)
    (hef₂ : c₂.oracle.emitFail = false) :
    (Compact.TransferFrom c₁ f₁ t₁ 0).1 = none
    ∧ intBal (Compact.TransferFrom c₁ f₁ t₁ 0).2 f₁ = intBal c₁ f₁
    ∧ intBal (Compact.TransferFrom c₁ f₁ t₁ 0).2 t₁ = intBal c₁ t₁
    ∧ (Compact.TransferFrom c₁ f₁ t₁ 0).2.events
        = c₁.events ++ [("Transfer", { From := f₁, To := t₁, Value := 0 })]
    ∧ (Rich.TransferFrom c₂ f₂ t₂ 0).1 = none
    ∧ userBal (Rich.TransferFrom c₂ f₂ t₂ 0).2 f₂ = userBal c₂ f₂
    ∧ userBal (Rich.TransferFrom c₂ f₂ t₂ 0).2 t₂ = userBal c₂ t₂
    ∧ (Rich.TransferFrom c₂ f₂ t₂ 0).2.events
        = c₂.events ++ [("Transfer", { From := f₂, To := t₂, Value := 0 })] := by
  have hnb₁ : ¬ atoi b < 0 := not_lt.mpr hbal₁
  have hnb₂ : ¬ fu.balance < 0 := not_lt.mpr hbal₂
  have hs₁ : (Compact.TransferFrom c₁ f₁ t₁ 0).1 = none := by
    simp [Compact.TransferFrom, Compact.transferHelper, Compact.SetEvent, Ctx.PutState,
      hft₁, hgf₁, hgt₁, hpf₁, hpt₁, hef₁, hb, hnb₁]
  have hs₂ : (Rich.TransferFrom c₂ f₂ t₂ 0).1 = none := by
    simp [Rich.TransferFrom, Rich.transferHelper, Rich.GetUser, Rich.SetEvent, Ctx.PutState,
      hft₂, hgf₂, hgt₂, hpf₂, hpt₂, hef₂, hfu, htu, hnb₂]
  have hp₁ : Compact.TransferFrom c₁ f₁ t₁ 0
      = (none, (Compact.TransferFrom c₁ f₁ t₁ 0).2) := by
    rw [← hs₁]
  have hp₂ : Rich.TransferFrom c₂ f₂ t₂ 0
      = (none, (Rich.TransferFrom c₂ f₂ t₂ 0).2) := by
    rw [← hs₂]
  obtain ⟨ch₁, hth₁, hcc₁⟩ := Compact.transferFrom_success _ _ _ _ _ hp₁
  obtain ⟨hft₁x, hv₁x, b0, hb0, hsuff₁, hch₁⟩ := Compact.transferHelper_success _ _ _ _ _ hth₁
  obtain ⟨ch₂, hth₂, hcc₂⟩ := Rich.transferFrom_decomp _ _ _ _ _ hp₂
  obtain ⟨hft₂x, hv₂x, fu0, tu0, hfu0, htu0, hsuff₂, hch₂⟩ :=
    Rich.transferHelper_writes _ _ _ _ _ hth₂
  have hbeq : b0 = b := by
    rw [hb] at hb0
    exact (Option.some.injEq _ _ ▸ hb0).symm
  have hfueq : fu0 = fu := by
    rw [hfu] at hfu0
    exact (Option.some.injEq _ _ ▸ hfu0).symm
  refine ⟨hs₁, ?_, ?_, ?_, hs₂, ?_, ?_, ?_⟩
  · rw [hcc₁, hch₁]
    simp only [intBal]
    rw [upd_ne _ _ _ _ hft₁, upd_self, hb0]
    simp [atoi]
  · rw [hcc₁, hch₁]
    simp only [intBal]
    rw [upd_self]
    simp [atoi]
  · rw [hcc₁, hch₁]
  · rw [hcc₂, hch₂]
    simp only [userBal]
    rw [upd_ne _ _ _ _ hft₂, upd_self, hfu]
    simp [unmarshalUser, hfueq]
  · rw [hcc₂, hch₂]
    simp only [userBal]
    rw [upd_self, htu]
    simp [unmarshalUser]
    cases htu0.symm.trans htu
    rfl
  · rw [hcc₂, hch₂]

/-- Witness for C6 (amended) at concrete inputs. -/
theorem C6_zero_transfer_witness :
    (Compact.TransferFrom exCompactCtx "A" "B" 0).1 = none
    ∧ intBal (Compact.TransferFrom exCompactCtx "A" "B" 0).2 "A" = intBal exCompactCtx "A"
    ∧ intBal (Compact.TransferFrom exCompactCtx "A" "B" 0).2 "B" = intBal exCompactCtx "B"
    ∧ (Compact.TransferFrom exCompactCtx "A" "B" 0).2.events
        = exCompactCtx.events ++ [("Transfer", { From := "A", To := "B", Value := 0 })]
    ∧ (Rich.TransferFrom exRichCtx "A" "B" 0).1 = none
    ∧ userBal (Rich.TransferFrom exRichCtx "A" "B" 0).2 "A" = userBal exRichCtx "A"
    ∧ userBal (Rich.TransferFrom exRichCtx "A" "B" 0).2 "B" = userBal exRichCtx "B"
    ∧ (Rich.TransferFrom exRichCtx "A" "B" 0).2.events
        = exRichCtx.events ++ [("Transfer", { From := "A", To := "B", Value := 0 })] :=
  C6_zero_transfer exCompactCtx "A" "B" (.intStr 50) (by decide) rfl (by decide)
    rfl rfl rfl rfl rfl
    exRichCtx "A" "B" { ID := "A", type := "user", balance := 50 }
    { ID := "B", type := "seller", balance := 7 } (by decide) rfl rfl (by decide)
    rfl rfl rfl rfl rfl

/-- A compact context whose stub fails the PutState of key "B" (so a
transfer into "B" fails at the second balance write, after staging the
first). -/
def exPutFailCtx : Ctx :=
  { oracle := { getFail := fun _ => false, putFail := fun k => k == "B", emitFail := false },
    store := fun k => if k = "A" then some (.intStr 50) else none,
    events := [], txid := "tx1" }

/-- A rich context whose stub fails SetEvent (so a transfer fails at
event emission, after staging both balance writes). -/
def exEmitFailCtx : Ctx :=
  { oracle := { getFail := fun _ => false, putFail := fun _ => false, emitFail := true },
    store := fun k =>
      if k = "A" then some (.userJson { ID := "A", type := "user", balance := 50 })
      else if k = "B" then some (.userJson { ID := "B", type := "seller", balance := 7 })
      else none,
    events := [], txid := "tx1" }

/-- Claim C7: whenever a TransferFrom invocation reports an error — at
whatever stage, including a failure of the second balance write or of
event emission — the state committed by the host equals the
pre-invocation state, so no mutated balance is ever observable alongside
a reported failure; this holds for both representations. -/
theorem C7_atomic_failure
    (c₁ : Ctx) (f₁ t₁ : String) (v₁ : Int)
    (h₁ : (Compact.TransferFrom c₁ f₁ t₁ v₁).1 ≠ none)
    (c₂ : Ctx) (f₂ t₂ : String) (v₂ : Int)
    (h₂ : (Rich.TransferFrom c₂ f₂ t₂ v₂).1 ≠ none) :
    committed c₁ (Compact.TransferFrom c₁ f₁ t₁ v₁) = c₁
    ∧ committed c₂ (Rich.TransferFrom c₂ f₂ t₂ v₂) = c₂ := by
  constructor
  · rcases hp : Compact.TransferFrom c₁ f₁ t₁ v₁ with ⟨e, cx⟩
    cases e
    · rw [hp] at h₁
      simp at h₁
    · simp [committed]
  · rcases hp : Rich.TransferFrom c₂ f₂ t₂ v₂ with ⟨e, cx⟩
    cases e
    · rw [hp] at h₂
      simp at h₂
    · simp [committed]

/-- Witness for C7: a compact transfer failing at the second balance
write and a rich transfer failing at event emission both commit the
unchanged pre-state. -/
theorem C7_atomic_failure_witness :
    committed exPutFailCtx (Compact.TransferFrom exPutFailCtx "A" "B" 5) = exPutFailCtx
    ∧ committed exEmitFailCtx (Rich.TransferFrom exEmitFailCtx "A" "B" 5) = exEmitFailCtx :=
  C7_atomic_failure exPutFailCtx "A" "B" 5 (by decide)
    exEmitFailCtx "A" "B" 5 (by decide)

/-- Counterexample to claim C8: a successful rich TransferFrom stores no
Transaction record under the invocation's transaction id — GetTransaction
of that id fails afterwards. -/
theorem C8_counterexample :
    (Rich.TransferFrom (Rich.InitLedger exEmptyCtx).2 "TestUser" "TestSeller" 2500).1 = none
    ∧ Rich.GetTransaction
        (Rich.TransferFrom (Rich.InitLedger exEmptyCtx).2 "TestUser" "TestSeller" 2500).2
        "tx1"
      = .error .unmarshalError :=
  ⟨rfl, rfl⟩

/-- Claim C8 as amended: TransferFrom itself records no Transaction; the
rich representation's separate SetTransaction operation stores, under the
host-supplied transaction id, a Transaction record capturing the from id,
the to id and the value, and GetTransaction of that id afterwards returns
exactly that record. -/
theorem C8_set_transaction
    (c : Ctx) (f t : String) (v : Int)
    (hp : c.oracle.putFail c.txid = false) (hg : c.oracle.getFail c.txid = false) :
    (Rich.SetTransaction c f t v).1 = { TXID := c.txid, From := f, To := t, Value := v }
    ∧ (Rich.SetTransaction c f t v).2.1 = none
    ∧ Rich.GetTransaction (Rich.SetTransaction c f t v).2.2 c.txid
        = .ok { TXID := c.txid, From := f, To := t, Value := v } := by
  refine ⟨?_, ?_, ?_⟩ <;>
    simp [Rich.SetTransaction, Rich.GetTransaction, Ctx.PutState, hp, hg, upd,
      unmarshalTransaction]

/-- Witness for C8 (amended) at concrete inputs. -/
theorem C8_set_transaction_witness :
    (Rich.SetTransaction exRichCtx "A" "B" 5).1
        = { TXID := "tx1", From := "A", To := "B", Value := 5 }
    ∧ (Rich.SetTransaction exRichCtx "A" "B" 5).2.1 = none
    ∧ Rich.GetTransaction (Rich.SetTransaction exRichCtx "A" "B" 5).2.2 "tx1"
        = .ok { TXID := "tx1", From := "A", To := "B", Value := 5 } :=
  C8_set_transaction exRichCtx "A" "B" 5 rfl rfl

/-- A compact-style context with an integer-string balance at "B" and
undecodable bytes at "A". -/
def exJunkCtx : Ctx :=
  { oracle := Oracle.reliable,
    store := fun k =>
      if k = "A" then some .junk else if k = "B" then some (.intStr 10) else none,
    events := [], txid := "tx1" }

/-- A rich-style context with a user record at "B" and undecodable bytes
at "A". -/
def exRichJunkCtx : Ctx :=
  { oracle := Oracle.reliable,
    store := fun k =>
      if k = "A" then some .junk
      else if k = "B" then some (.userJson { ID := "B", type := "user", balance := 10 })
      else none,
    events := [], txid := "tx1" }

/-- Claim C9 (code-bug evaluation): with undecodable bytes stored at "A",
BalanceOf("A") fails in both representations, and the rich transferHelper
fails when it reads the key; but the compact TransferFrom reading "A" as
the recipient silently substitutes balance 0 for the failed Atoi decode,
succeeds, and overwrites the undecodable bytes with the transferred
amount. -/
theorem C9_swallowed_decode :
    (Compact.TransferFrom exJunkCtx "B" "A" 3).1 = none
    ∧ (Compact.TransferFrom exJunkCtx "B" "A" 3).2.store "A" = some (.intStr 3)
    ∧ Compact.BalanceOf exJunkCtx "A" = .error (.userDoesNotExist "A")
    ∧ Rich.BalanceOf exRichJunkCtx "A" = .error (.userDoesNotExist "A")
    ∧ (Rich.TransferFrom exRichJunkCtx "B" "A" 3).1
        = some (.transferFailed .unmarshalError) :=
  ⟨rfl, rfl, rfl, rfl, rfl⟩

/-- Claim C10: SetEvent publishes the event under the literal name
"Transfer" regardless of its eventName argument, in both files: when the
stub call succeeds exactly the pair ("Transfer", payload) is appended to
the emitted events, and on stub failure nothing is. -/
theorem C10_event_name (c : Ctx) (name : String) (e : event) :
    (Compact.SetEvent c name e).2.events
        = (if c.oracle.emitFail then c.events else c.events ++ [("Transfer", e)])
    ∧ (Rich.SetEvent c name e).2.events
        = (if c.oracle.emitFail then c.events else c.events ++ [("Transfer", e)]) := by
  cases h : c.oracle.emitFail <;>
    simp [Compact.SetEvent, Rich.SetEvent, h]
